import Mathlib

/-!
# The NURBS-surface binding layer (`on_nurbssurface.cpp`)

A shallow embedding of the exported C functions of
`src/librhino3dmio_native/on_nurbssurface.cpp`.

* A nullable pointer `T*` is an `Option T`: `none` is `nullptr`, `some t` is a
  pointer to an object whose current contents are `t`.
* The wrapped geometry kernel (openNURBS) is external.  It enters as a record
  `Kernel` of its member functions.  A `const` member function is a reader; a
  non-`const` one returns its result together with the new contents of the object.
* Every call that a wrapper makes into the kernel is recorded, in order, in a list
  of `KCall`, so that "the kernel is not invoked" is a statement about that list.
* A C `int` is an `Int` (the layer does no integer arithmetic), a C `double` is a
  `Double` (the layer only compares doubles).
-/

namespace Rhino3dm

/-! ## Primitive values -/

/-- Value of a C `double` as comparison operators see it: not-a-number, the two
infinities, or the rational number a finite double denotes (`-0.0` and `0.0` both
denote `0`). -/
inductive Double where
  | nan : Double
  | negInf : Double
  | fin (q : ℚ) : Double
  | posInf : Double
  deriving DecidableEq

namespace Double

/-- C `a == b` on doubles: false as soon as one side is not-a-number. -/
def eq : Double → Double → Bool
  | nan, _ => false
  | _, nan => false
  | negInf, negInf => true
  | posInf, posInf => true
  | fin a, fin b => decide (a = b)
  | _, _ => false

/-- C `a != b` on doubles. -/
def ne (a b : Double) : Bool := !(eq a b)

/-- C `a < b` on doubles: false as soon as one side is not-a-number. -/
def lt : Double → Double → Bool
  | nan, _ => false
  | _, nan => false
  | negInf, negInf => false
  | negInf, _ => true
  | fin _, negInf => false
  | fin a, fin b => decide (a < b)
  | fin _, posInf => true
  | posInf, _ => false

/-- C `a > b` on doubles. -/
def gt (a b : Double) : Bool := lt b a

/-- The literal `0.0` (also the value of `double rc = 0`). -/
def zero : Double := fin 0

/-- The literal `1.0`. -/
def one : Double := fin 1

end Double

/-- Embedding of `ON_2dPoint`. -/
structure ON_2dPoint where
  x : Double
  y : Double
  deriving DecidableEq

/-- Embedding of `ON_3dPoint`. -/
structure ON_3dPoint where
  x : Double
  y : Double
  z : Double
  deriving DecidableEq

/-- Embedding of `ON_4dPoint`: homogeneous point, `w` is the weight. -/
structure ON_4dPoint where
  x : Double
  y : Double
  z : Double
  w : Double
  deriving DecidableEq

/-! ## The wrapped kernel -/

/-- One call into the kernel, with the arguments the wrapper passed. -/
inductive KCall where
  | Assign : KCall
  | IsClamped (dir e : Int) : KCall
  | ClampEnd (dir e : Int) : KCall
  | SuperfluousKnot (dir e : Int) : KCall
  | IsRational : KCall
  | ZeroCVs : KCall
  | MakeRational : KCall
  | MakeNonRational : KCall
  | IncreaseDegree (dir desiredDegree : Int) : KCall
  | Order (dir : Int) : KCall
  | CVCount (dir : Int) : KCall
  | KnotCount (dir : Int) : KCall
  | GrevilleAbcissa (dir i : Int) : KCall
  | GetCV3 (u v : Int) : KCall
  | SetCV3 (u v : Int) (p : ON_3dPoint) : KCall
  | GetCV4 (u v : Int) : KCall
  | SetCV4 (u v : Int) (p : ON_4dPoint) : KCall
  | Weight (u v : Int) : KCall
  | SetWeight (u v : Int) (w : Double) : KCall
  | CVSize : KCall
  | SetKnot (dir i : Int) (k : Double) : KCall
  | Knot (dir i : Int) : KCall
  | KnotMultiplicity (dir i : Int) : KCall
  | MakeClampedUniformKnotVector (dir : Int) (delta : Double) : KCall
  | MakePeriodicUniformKnotVector (dir : Int) (delta : Double) : KCall
  | InsertKnot (dir : Int) (k : Double) (mult : Int) : KCall
  | New : KCall
  | CreateRuledSurface : KCall
  | IsValid : KCall
  | DuplicateCurve : KCall
  | DuplicateSurface : KCall
  | AssignCurve : KCall
  deriving DecidableEq

/-- The two `SetCV` overloads. -/
def KCall.isSetCV : KCall → Bool
  | KCall.SetCV3 _ _ _ => true
  | KCall.SetCV4 _ _ _ => true
  | _ => false

/-- The members of the kernel that the binding layer uses.  `S` is the contents of
an `ON_NurbsSurface`, `C` of an `ON_Curve`, `N` of an `ON_NurbsCurve`.

`const` member functions (`IsClamped`, `SuperfluousKnot`, `IsRational`, `Order`,
`CVCount`, `KnotCount`, `GrevilleAbcissa`, `GetCV`, `Weight`, `CVSize`, `Knot`,
`KnotMultiplicity`, `IsValid`, `Duplicate`) read the object; `GetCV` also writes its
reference argument.  The others return their result and the new contents. -/
structure Kernel (S C N : Type) where
  /-- The macro `ON_UNSET_VALUE`. -/
  ON_UNSET_VALUE : Double
  /-- The macro `ON_UNSET_POSITIVE_VALUE`. -/
  ON_UNSET_POSITIVE_VALUE : Double
  /-- The public data member `m_is_rat`. -/
  m_is_rat : S → Int
  /-- Member `ON_NurbsSurface::operator=`: `Assign dst src` is the new contents of `dst`. -/
  Assign : S → S → S
  IsClamped : S → Int → Int → Bool
  ClampEnd : S → Int → Int → Bool × S
  SuperfluousKnot : S → Int → Int → Double
  IsRational : S → Bool
  ZeroCVs : S → Bool × S
  MakeRational : S → Bool × S
  MakeNonRational : S → Bool × S
  IncreaseDegree : S → Int → Int → Bool × S
  Order : S → Int → Int
  CVCount : S → Int → Int
  KnotCount : S → Int → Int
  GrevilleAbcissa : S → Int → Int → Double
  /-- Member `GetCV(int, int, ON_3dPoint&) const`: result and the new contents of the point. -/
  GetCV3 : S → Int → Int → ON_3dPoint → Bool × ON_3dPoint
  SetCV3 : S → Int → Int → ON_3dPoint → Bool × S
  /-- Member `GetCV(int, int, ON_4dPoint&) const`: result and the new contents of the point. -/
  GetCV4 : S → Int → Int → ON_4dPoint → Bool × ON_4dPoint
  SetCV4 : S → Int → Int → ON_4dPoint → Bool × S
  Weight : S → Int → Int → Double
  SetWeight : S → Int → Int → Double → Bool × S
  CVSize : S → Int
  SetKnot : S → Int → Int → Double → Bool × S
  Knot : S → Int → Int → Double
  KnotMultiplicity : S → Int → Int → Int
  MakeClampedUniformKnotVector : S → Int → Double → Bool × S
  MakePeriodicUniformKnotVector : S → Int → Double → Bool × S
  InsertKnot : S → Int → Double → Int → Bool × S
  /-- The static constructor `ON_NurbsSurface::New()`. -/
  New : S
  /-- Member `CreateRuledSurface(curveA, curveB)`: its `int` result and the new contents. -/
  CreateRuledSurface : S → C → C → Int × S
  IsValid : S → Bool
  /-- Member `ON_NurbsCurve::Duplicate()`: the pointer it returns. -/
  DuplicateCurve : N → Option N
  /-- Member `ON_NurbsSurface::Duplicate()`: the pointer it returns. -/
  DuplicateSurface : S → Option S
  /-- Member `ON_NurbsCurve::operator=`: `AssignCurve dst src` is the new contents of `dst`. -/
  AssignCurve : N → N → N

/-! ## What a wrapper leaves behind -/

/-- Outcome of a wrapper that takes a surface pointer: the returned value, the
contents behind the surface pointer afterwards, and the kernel calls made. -/
structure Ret (α S : Type) where
  rc : α
  surface : Option S
  calls : List KCall

/-- Outcome of a wrapper that takes a surface pointer and a point pointer. -/
structure PtRet (S P : Type) where
  rc : Bool
  surface : Option S
  point : Option P
  calls : List KCall

variable {S C N : Type}

/-- The index test
`u >= 0 && u < pSurface->CVCount(0) && v >= 0 && v < pSurface->CVCount(1)`
of `GetCV3`, `SetCV3`, `GetCV4`, `SetCV4` and `Weight`, evaluated left to right
with short-circuit: its value and the `CVCount` calls it made. -/
def cvIndexTest (K : Kernel S C N) (s : S) (u v : Int) : Bool × List KCall :=
  if u ≥ 0 then
    if u < K.CVCount s 0 then
      if v ≥ 0 then
        (decide (v < K.CVCount s 1), [KCall.CVCount 0, KCall.CVCount 1])
      else (false, [KCall.CVCount 0])
    else (false, [KCall.CVCount 0])
  else (false, [])

/-- Embedding of `ON_NurbsSurface_GetCV3`. -/
def ON_NurbsSurface_GetCV3 (K : Kernel S C N) (pSurface : Option S) (u v : Int)
    (pPoint : Option ON_3dPoint) : PtRet S ON_3dPoint :=
  match pSurface, pPoint with
  | some s, some p =>
    if (cvIndexTest K s u v).1 then
      { rc := (K.GetCV3 s u v p).1, surface := some s, point := some (K.GetCV3 s u v p).2,
        calls := (cvIndexTest K s u v).2 ++ [KCall.GetCV3 u v] }
    else { rc := false, surface := some s, point := some p, calls := (cvIndexTest K s u v).2 }
  | _, _ => { rc := false, surface := pSurface, point := pPoint, calls := [] }

/-- Embedding of `ON_NurbsSurface_SetCV3`. -/
def ON_NurbsSurface_SetCV3 (K : Kernel S C N) (pSurface : Option S) (u v : Int)
    (pPoint : Option ON_3dPoint) : PtRet S ON_3dPoint :=
  match pSurface, pPoint with
  | some s, some p =>
    if (cvIndexTest K s u v).1 then
      { rc := (K.SetCV3 s u v p).1, surface := some (K.SetCV3 s u v p).2, point := some p,
        calls := (cvIndexTest K s u v).2 ++ [KCall.SetCV3 u v p] }
    else { rc := false, surface := some s, point := some p, calls := (cvIndexTest K s u v).2 }
  | _, _ => { rc := false, surface := pSurface, point := pPoint, calls := [] }

/-- Embedding of `ON_NurbsSurface_GetCV4`. -/
def ON_NurbsSurface_GetCV4 (K : Kernel S C N) (pSurface : Option S) (u v : Int)
    (pPoint : Option ON_4dPoint) : PtRet S ON_4dPoint :=
  match pSurface, pPoint with
  | some s, some p =>
    if (cvIndexTest K s u v).1 then
      { rc := (K.GetCV4 s u v p).1, surface := some s, point := some (K.GetCV4 s u v p).2,
        calls := (cvIndexTest K s u v).2 ++ [KCall.GetCV4 u v] }
    else { rc := false, surface := some s, point := some p, calls := (cvIndexTest K s u v).2 }
  | _, _ => { rc := false, surface := pSurface, point := pPoint, calls := [] }

/-- The test of `ON_NurbsSurface_SetCV4` that guards `MakeRational`:
`pPoint->w != 1.0`, then
`0 == m_is_rat && pPoint->w > 0.0 && pPoint->w < ON_UNSET_POSITIVE_VALUE`. -/
def promotes (K : Kernel S C N) (s : S) (p : ON_4dPoint) : Bool :=
  Double.ne p.w Double.one &&
    (decide (0 = K.m_is_rat s) && Double.gt p.w Double.zero &&
      Double.lt p.w K.ON_UNSET_POSITIVE_VALUE)

/-- Embedding of `ON_NurbsSurface_SetCV4`. -/
def ON_NurbsSurface_SetCV4 (K : Kernel S C N) (pSurface : Option S) (u v : Int)
    (pPoint : Option ON_4dPoint) : PtRet S ON_4dPoint :=
  match pSurface, pPoint with
  | some s, some p =>
    if (cvIndexTest K s u v).1 then
      if promotes K s p then
        { rc := (K.SetCV4 (K.MakeRational s).2 u v p).1,
          surface := some (K.SetCV4 (K.MakeRational s).2 u v p).2, point := some p,
          calls := (cvIndexTest K s u v).2 ++ [KCall.MakeRational, KCall.SetCV4 u v p] }
      else
        { rc := (K.SetCV4 s u v p).1, surface := some (K.SetCV4 s u v p).2, point := some p,
          calls := (cvIndexTest K s u v).2 ++ [KCall.SetCV4 u v p] }
    else { rc := false, surface := some s, point := some p, calls := (cvIndexTest K s u v).2 }
  | _, _ => { rc := false, surface := pSurface, point := pPoint, calls := [] }

/-- Embedding of `ON_NurbsSurface_CopyFrom`; `surface` of the outcome is the contents behind
`pDestNurbsSurface` afterwards (the source is `const`). -/
def ON_NurbsSurface_CopyFrom (K : Kernel S C N) (pConstSourceNurbsSurface : Option S)
    (pDestNurbsSurface : Option S) : Ret Unit S :=
  match pConstSourceNurbsSurface, pDestNurbsSurface with
  | some src, some dst => { rc := (), surface := some (K.Assign dst src), calls := [KCall.Assign] }
  | _, _ => { rc := (), surface := pDestNurbsSurface, calls := [] }

/-- Embedding of `ON_NurbsSurface_GetBoolDir`. -/
def ON_NurbsSurface_GetBoolDir (K : Kernel S C N) (pSurface : Option S) (which dir : Int) :
    Ret Bool S :=
  match pSurface with
  | some s =>
    if which = 1 then
      { rc := K.IsClamped s dir 0, surface := some s, calls := [KCall.IsClamped dir 0] }
    else if which = 2 then
      { rc := K.IsClamped s dir 1, surface := some s, calls := [KCall.IsClamped dir 1] }
    else if which = 4 then
      { rc := (K.ClampEnd s dir 0).1, surface := some (K.ClampEnd s dir 0).2,
        calls := [KCall.ClampEnd dir 0] }
    else if which = 5 then
      { rc := (K.ClampEnd s dir 1).1, surface := some (K.ClampEnd s dir 1).2,
        calls := [KCall.ClampEnd dir 1] }
    else { rc := false, surface := some s, calls := [] }
  | none => { rc := false, surface := none, calls := [] }

/-- Embedding of `ON_NurbsSurface_SuperfluousKnot`. -/
def ON_NurbsSurface_SuperfluousKnot (K : Kernel S C N) (pConstNurbsSurface : Option S)
    (dir e : Int) : Ret Double S :=
  match pConstNurbsSurface with
  | some s =>
    { rc := K.SuperfluousKnot s dir e, surface := some s, calls := [KCall.SuperfluousKnot dir e] }
  | none => { rc := Double.zero, surface := none, calls := [] }

/-- Embedding of `ON_NurbsSurface_GetBool`. -/
def ON_NurbsSurface_GetBool (K : Kernel S C N) (pSurface : Option S) (which : Int) : Ret Bool S :=
  match pSurface with
  | some s =>
    if which = 0 then
      { rc := K.IsRational s, surface := some s, calls := [KCall.IsRational] }
    else if which = 3 then
      { rc := (K.ZeroCVs s).1, surface := some (K.ZeroCVs s).2, calls := [KCall.ZeroCVs] }
    else if which = 6 then
      { rc := (K.MakeRational s).1, surface := some (K.MakeRational s).2,
        calls := [KCall.MakeRational] }
    else if which = 7 then
      { rc := (K.MakeNonRational s).1, surface := some (K.MakeNonRational s).2,
        calls := [KCall.MakeNonRational] }
    else { rc := false, surface := some s, calls := [] }
  | none => { rc := false, surface := none, calls := [] }

/-- Embedding of `ON_NurbsSurface_IncreaseDegree`. -/
def ON_NurbsSurface_IncreaseDegree (K : Kernel S C N) (pSurface : Option S)
    (dir desiredDegree : Int) : Ret Bool S :=
  match pSurface with
  | some s =>
    { rc := (K.IncreaseDegree s dir desiredDegree).1,
      surface := some (K.IncreaseDegree s dir desiredDegree).2,
      calls := [KCall.IncreaseDegree dir desiredDegree] }
  | none => { rc := false, surface := none, calls := [] }

/-- Embedding of `ON_NurbsSurface_GetIntDir`. -/
def ON_NurbsSurface_GetIntDir (K : Kernel S C N) (pSurface : Option S) (which dir : Int) :
    Ret Int S :=
  match pSurface with
  | some s =>
    if which = 1 then { rc := K.Order s dir, surface := some s, calls := [KCall.Order dir] }
    else if which = 2 then
      { rc := K.CVCount s dir, surface := some s, calls := [KCall.CVCount dir] }
    else if which = 3 then
      { rc := K.KnotCount s dir, surface := some s, calls := [KCall.KnotCount dir] }
    else { rc := 0, surface := some s, calls := [] }
  | none => { rc := 0, surface := none, calls := [] }

/-- Embedding of `ON_NurbsSurface_GetGrevillePoint`. -/
def ON_NurbsSurface_GetGrevillePoint (K : Kernel S C N) (pConstNurbsSurface : Option S)
    (u v : Int) (point : Option ON_2dPoint) : PtRet S ON_2dPoint :=
  match pConstNurbsSurface, point with
  | some s, some _ =>
    { rc := true, surface := some s,
      point := some { x := K.GrevilleAbcissa s 0 u, y := K.GrevilleAbcissa s 1 v },
      calls := [KCall.GrevilleAbcissa 0 u, KCall.GrevilleAbcissa 1 v] }
  | _, _ => { rc := false, surface := pConstNurbsSurface, point := point, calls := [] }

/-- Embedding of `ON_NurbsSurface_Weight`. -/
def ON_NurbsSurface_Weight (K : Kernel S C N) (pSurface : Option S) (u v : Int) : Ret Double S :=
  match pSurface with
  | some s =>
    if (cvIndexTest K s u v).1 then
      { rc := K.Weight s u v, surface := some s,
        calls := (cvIndexTest K s u v).2 ++ [KCall.Weight u v] }
    else { rc := K.ON_UNSET_VALUE, surface := some s, calls := (cvIndexTest K s u v).2 }
  | none => { rc := K.ON_UNSET_VALUE, surface := none, calls := [] }

/-- Embedding of `ON_NurbsSurface_SetWeight`. -/
def ON_NurbsSurface_SetWeight (K : Kernel S C N) (pSurface : Option S) (u v : Int)
    (weight : Double) : Ret Bool S :=
  match pSurface with
  | some s =>
    { rc := (K.SetWeight s u v weight).1, surface := some (K.SetWeight s u v weight).2,
      calls := [KCall.SetWeight u v weight] }
  | none => { rc := false, surface := none, calls := [] }

/-- Embedding of `ON_NurbsSurface_CVSize`. -/
def ON_NurbsSurface_CVSize (K : Kernel S C N) (pSurface : Option S) : Ret Int S :=
  match pSurface with
  | some s => { rc := K.CVSize s, surface := some s, calls := [KCall.CVSize] }
  | none => { rc := 0, surface := none, calls := [] }

/-- Embedding of `ON_NurbsSurface_SetKnot`. -/
def ON_NurbsSurface_SetKnot (K : Kernel S C N) (pSurface : Option S) (dir knotIndex : Int)
    (knotValue : Double) : Ret Bool S :=
  match pSurface with
  | some s =>
    { rc := if (K.SetKnot s dir knotIndex knotValue).1 then true else false,
      surface := some (K.SetKnot s dir knotIndex knotValue).2,
      calls := [KCall.SetKnot dir knotIndex knotValue] }
  | none => { rc := false, surface := none, calls := [] }

/-- Embedding of `ON_NurbsSurface_Knot`. -/
def ON_NurbsSurface_Knot (K : Kernel S C N) (pSurface : Option S) (dir knotIndex : Int) :
    Ret Double S :=
  match pSurface with
  | some s => { rc := K.Knot s dir knotIndex, surface := some s, calls := [KCall.Knot dir knotIndex] }
  | none => { rc := Double.zero, surface := none, calls := [] }

/-- Embedding of `ON_NurbsSurface_KnotMultiplicity`. -/
def ON_NurbsSurface_KnotMultiplicity (K : Kernel S C N) (pSurface : Option S)
    (dir knotIndex : Int) : Ret Int S :=
  match pSurface with
  | some s =>
    { rc := K.KnotMultiplicity s dir knotIndex, surface := some s,
      calls := [KCall.KnotMultiplicity dir knotIndex] }
  | none => { rc := 0, surface := none, calls := [] }

/-- Embedding of `ON_NurbsSurface_MakeUniformKnotVector`. -/
def ON_NurbsSurface_MakeUniformKnotVector (K : Kernel S C N) (pSurface : Option S) (dir : Int)
    (delta : Double) (clamped : Bool) : Ret Bool S :=
  match pSurface with
  | some s =>
    if clamped then
      { rc := (K.MakeClampedUniformKnotVector s dir delta).1,
        surface := some (K.MakeClampedUniformKnotVector s dir delta).2,
        calls := [KCall.MakeClampedUniformKnotVector dir delta] }
    else
      { rc := (K.MakePeriodicUniformKnotVector s dir delta).1,
        surface := some (K.MakePeriodicUniformKnotVector s dir delta).2,
        calls := [KCall.MakePeriodicUniformKnotVector dir delta] }
  | none => { rc := false, surface := none, calls := [] }

/-- Embedding of `ON_NurbsSurface_InsertKnot`. -/
def ON_NurbsSurface_InsertKnot (K : Kernel S C N) (pSurface : Option S) (dir : Int)
    (knotValue : Double) (knotMultiplicity : Int) : Ret Bool S :=
  match pSurface with
  | some s =>
    { rc := (K.InsertKnot s dir knotValue knotMultiplicity).1,
      surface := some (K.InsertKnot s dir knotValue knotMultiplicity).2,
      calls := [KCall.InsertKnot dir knotValue knotMultiplicity] }
  | none => { rc := false, surface := none, calls := [] }

/-- Outcome of a wrapper that returns a pointer to a fresh object. -/
structure PtrRet (T : Type) where
  rc : Option T
  calls : List KCall

/-- Embedding of `ON_NurbsSurface_CreateRuledSurface`: the surface is built from
`ON_NurbsSurface::New()`, and deleted again when `IsValid` fails. -/
def ON_NurbsSurface_CreateRuledSurface (K : Kernel S C N) (pConstA pConstB : Option C) :
    PtrRet S :=
  match pConstA, pConstB with
  | some a, some b =>
    if !(K.IsValid (K.CreateRuledSurface K.New a b).2) then
      { rc := none, calls := [KCall.New, KCall.CreateRuledSurface, KCall.IsValid] }
    else
      { rc := some (K.CreateRuledSurface K.New a b).2,
        calls := [KCall.New, KCall.CreateRuledSurface, KCall.IsValid] }
  | _, _ => { rc := none, calls := [] }

/-! ## Morph control -/

/-- The data members of `ON_MorphControl` that this file reads or writes; `m_rest`
stands for all the others. -/
structure ON_MorphControl (N S R : Type) where
  m_varient : Int
  m_nurbs_curve0 : N
  m_nurbs_curve : N
  m_nurbs_surface : S
  m_sporh_tolerance : Double
  m_sporh_bQuickPreview : Bool
  m_sporh_bPreserveStructure : Bool
  m_rest : R

/-- Outcome of a wrapper that writes a morph control: the contents behind the
pointer afterwards and the kernel calls made. -/
structure McRet (N S R : Type) where
  control : Option (ON_MorphControl N S R)
  calls : List KCall

variable {R : Type}

/-- Embedding of `ON_MorphControl_SetCurves`. -/
def ON_MorphControl_SetCurves (K : Kernel S C N) (pMorphControl : Option (ON_MorphControl N S R))
    (pConstNurbsCurve0 pConstNurbsCurve1 : Option N) : McRet N S R :=
  match pMorphControl, pConstNurbsCurve0, pConstNurbsCurve1 with
  | some mc, some c0, some c1 =>
    { control := some { mc with
        m_varient := 1
        m_nurbs_curve0 := K.AssignCurve mc.m_nurbs_curve0 c0
        m_nurbs_curve := K.AssignCurve mc.m_nurbs_curve c1 },
      calls := [KCall.AssignCurve, KCall.AssignCurve] }
  | _, _, _ => { control := pMorphControl, calls := [] }

/-- Embedding of `ON_MorphControl_GetSporhTolerance`. -/
def ON_MorphControl_GetSporhTolerance (pConstMorphControl : Option (ON_MorphControl N S R)) :
    Double :=
  match pConstMorphControl with
  | some mc => mc.m_sporh_tolerance
  | none => Double.zero

/-- Embedding of `ON_MorphControl_SetSporhTolerance`: the contents behind the pointer afterwards. -/
def ON_MorphControl_SetSporhTolerance (pMorphControl : Option (ON_MorphControl N S R))
    (tolerance : Double) : Option (ON_MorphControl N S R) :=
  match pMorphControl with
  | some mc => some { mc with m_sporh_tolerance := tolerance }
  | none => none

/-- Embedding of `ON_MorphControl_GetCurve`. -/
def ON_MorphControl_GetCurve (K : Kernel S C N)
    (pConstMorphControl : Option (ON_MorphControl N S R)) : PtrRet N :=
  match pConstMorphControl with
  | some mc => { rc := K.DuplicateCurve mc.m_nurbs_curve, calls := [KCall.DuplicateCurve] }
  | none => { rc := none, calls := [] }

/-- Embedding of `ON_MorphControl_GetSurface`. -/
def ON_MorphControl_GetSurface (K : Kernel S C N)
    (pConstMorphControl : Option (ON_MorphControl N S R)) : PtrRet S :=
  match pConstMorphControl with
  | some mc => { rc := K.DuplicateSurface mc.m_nurbs_surface, calls := [KCall.DuplicateSurface] }
  | none => { rc := none, calls := [] }

/-- Embedding of `ON_MorphControl_GetBool`. -/
def ON_MorphControl_GetBool (pConstMorphControl : Option (ON_MorphControl N S R))
    (quickpreview : Bool) : Bool :=
  match pConstMorphControl with
  | some mc => if quickpreview then mc.m_sporh_bQuickPreview else mc.m_sporh_bPreserveStructure
  | none => false

/-- Embedding of `ON_MorphControl_SetBool`: the contents behind the pointer afterwards. -/
def ON_MorphControl_SetBool (pMorphControl : Option (ON_MorphControl N S R)) (val : Bool)
    (quickpreview : Bool) : Option (ON_MorphControl N S R) :=
  match pMorphControl with
  | some mc =>
    if quickpreview then some { mc with m_sporh_bQuickPreview := val }
    else some { mc with m_sporh_bPreserveStructure := val }
  | none => none

/-! ## A concrete kernel

A small kernel on which the wrappers can be run.  Control points are kept as an
association list from `(u, v)` to the homogeneous point, knots as the allocated arrays
(which may be longer than `KnotCount`).  As in the wrapped kernel, `Knot`, `Weight`,
`SetWeight` and `GrevilleAbcissa` do not validate their indices, while `SetKnot` and
`KnotMultiplicity` do.  Operations that need spline mathematics (clamping, knot
insertion, degree elevation, uniform knot vectors) are not carried out and report
failure.  A curve is its list of control points. -/

/-- Contents of a surface of the concrete kernel. -/
structure DemoSurface where
  m_is_rat : Int
  m_order : Int × Int
  m_cv_count : Int × Int
  m_knot : List Double × List Double
  m_cv : List ((Int × Int) × ON_4dPoint)
  deriving DecidableEq

namespace DemoSurface

/-- Select the entry of a per-direction pair: `m[dir ? 1 : 0]`. -/
def sel {α : Type} (m : α × α) (dir : Int) : α := if dir = 0 then m.1 else m.2

/-- The stored control point at `(u, v)`, if any. -/
def cv (s : DemoSurface) (u v : Int) : Option ON_4dPoint :=
  (s.m_cv.find? (fun e => decide (e.1 = (u, v)))).map Prod.snd

/-- Store a control point at `(u, v)`. -/
def putCV (s : DemoSurface) (u v : Int) (p : ON_4dPoint) : DemoSurface :=
  { s with m_cv := ((u, v), p) :: s.m_cv }

/-- Number of knots in use: `order + cv_count - 2`. -/
def knotCount (s : DemoSurface) (dir : Int) : Int := sel s.m_order dir + sel s.m_cv_count dir - 2

/-- Unchecked read of the knot array: whatever the array holds at index `i`
(`0` outside the allocation). -/
def readKnot (s : DemoSurface) (dir i : Int) : Double :=
  if i < 0 then Double.zero else (sel s.m_knot dir).getD i.toNat Double.zero

/-- The ruled surface between two polylines with the same number of points. -/
def ruled (a b : List ON_3dPoint) : DemoSurface :=
  { m_is_rat := 0
    m_order := (2, 2)
    m_cv_count := (a.length, 2)
    m_knot := ((List.range a.length).map (fun i => Double.fin i), [Double.fin 0, Double.fin 1])
    m_cv := (a.enum.map (fun e => (((e.1 : Int), (0 : Int)), ON_4dPoint.mk e.2.x e.2.y e.2.z Double.one)))
      ++ (b.enum.map (fun e => (((e.1 : Int), (1 : Int)), ON_4dPoint.mk e.2.x e.2.y e.2.z Double.one))) }

end DemoSurface

/-- The concrete kernel. -/
def demoKernel : Kernel DemoSurface (List ON_3dPoint) (List ON_3dPoint) where
  ON_UNSET_VALUE := Double.fin (-(123432101234321 * 10 ^ 294))
  ON_UNSET_POSITIVE_VALUE := Double.fin (123432101234321 * 10 ^ 294)
  m_is_rat := fun s => s.m_is_rat
  Assign := fun _ src => src
  IsClamped := fun _ _ _ => false
  ClampEnd := fun s _ _ => (false, s)
  SuperfluousKnot := fun _ _ _ => Double.zero
  IsRational := fun s => decide (s.m_is_rat ≠ 0)
  ZeroCVs := fun s => (false, s)
  MakeRational := fun s => (true, { s with m_is_rat := 1 })
  MakeNonRational := fun s => (false, s)
  IncreaseDegree := fun s _ _ => (false, s)
  Order := fun s dir => DemoSurface.sel s.m_order dir
  CVCount := fun s dir => DemoSurface.sel s.m_cv_count dir
  KnotCount := fun s dir => s.knotCount dir
  GrevilleAbcissa := fun s dir i => s.readKnot dir i
  GetCV3 := fun s u v p =>
    match s.cv u v with
    | some q => (true, { x := q.x, y := q.y, z := q.z })
    | none => (false, p)
  SetCV3 := fun s u v p => (true, s.putCV u v { x := p.x, y := p.y, z := p.z, w := Double.one })
  GetCV4 := fun s u v p =>
    match s.cv u v with
    | some q => (true, q)
    | none => (false, p)
  SetCV4 := fun s u v p => (true, s.putCV u v p)
  Weight := fun s u v =>
    match s.cv u v with
    | some q => q.w
    | none => Double.one
  SetWeight := fun s u v w =>
    if s.m_is_rat ≠ 0 then
      (true, s.putCV u v { ((s.cv u v).getD ⟨Double.zero, Double.zero, Double.zero, w⟩) with w := w })
    else (Double.eq w Double.one, s)
  CVSize := fun s => if s.m_is_rat ≠ 0 then 4 else 3
  SetKnot := fun s dir i k =>
    if 0 ≤ i ∧ i < s.knotCount dir then
      (true, { s with m_knot :=
        if dir = 0 then ((s.m_knot.1).set i.toNat k, s.m_knot.2)
        else (s.m_knot.1, (s.m_knot.2).set i.toNat k) })
    else (false, s)
  Knot := fun s dir i => s.readKnot dir i
  KnotMultiplicity := fun s dir i =>
    if 0 ≤ i ∧ i < s.knotCount dir then
      (((DemoSurface.sel s.m_knot dir).take (s.knotCount dir).toNat).filter
        (fun k => Double.eq k (s.readKnot dir i))).length
    else 0
  MakeClampedUniformKnotVector := fun s _ _ => (false, s)
  MakePeriodicUniformKnotVector := fun s _ _ => (false, s)
  InsertKnot := fun s _ _ _ => (false, s)
  New := { m_is_rat := 0, m_order := (0, 0), m_cv_count := (0, 0), m_knot := ([], []), m_cv := [] }
  CreateRuledSurface := fun s a b =>
    if a.length = b.length ∧ 2 ≤ a.length then (1, DemoSurface.ruled a b) else (0, s)
  IsValid := fun s =>
    decide (2 ≤ s.m_order.1 ∧ 2 ≤ s.m_order.2 ∧
      s.m_order.1 ≤ s.m_cv_count.1 ∧ s.m_order.2 ≤ s.m_cv_count.2)
  DuplicateCurve := fun c => some c
  DuplicateSurface := fun s => some s
  AssignCurve := fun _ src => src

/-- A point with small integer coordinates. -/
def pt3 (x y z : Int) : ON_3dPoint := { x := Double.fin x, y := Double.fin y, z := Double.fin z }

/-- A homogeneous point with small integer coordinates. -/
def pt4 (x y z w : Int) : ON_4dPoint :=
  { x := Double.fin x, y := Double.fin y, z := Double.fin z, w := Double.fin w }

/-- A non-rational bilinear patch (2 by 2 control points, order 2 in both
directions) over the unit square.  Each knot array has two knots in use and
capacity four. -/
def demoPatch : DemoSurface :=
  { m_is_rat := 0
    m_order := (2, 2)
    m_cv_count := (2, 2)
    m_knot := ([Double.fin 0, Double.fin 1, Double.fin 5, Double.fin 5],
               [Double.fin 0, Double.fin 1, Double.fin 5, Double.fin 5])
    m_cv := [((0, 0), pt4 0 0 0 1), ((1, 0), pt4 1 0 0 1),
             ((0, 1), pt4 0 1 0 1), ((1, 1), pt4 1 1 0 1)] }

/-- A morph control of the concrete kernel. -/
def demoControl : ON_MorphControl (List ON_3dPoint) DemoSurface Unit :=
  { m_varient := 1
    m_nurbs_curve0 := [pt3 0 0 0, pt3 1 0 0]
    m_nurbs_curve := [pt3 0 0 0, pt3 1 1 0]
    m_nurbs_surface := demoPatch
    m_sporh_tolerance := Double.fin 0
    m_sporh_bQuickPreview := false
    m_sporh_bPreserveStructure := false
    m_rest := () }

/-- The concrete kernel with the index validation of `SetKnot` and `KnotMultiplicity`
taken out: every member trusts the index it is given and works on the allocated
arrays. -/
def trustingKernel : Kernel DemoSurface (List ON_3dPoint) (List ON_3dPoint) :=
  { demoKernel with
    SetKnot := fun s dir i k =>
      (true, { s with m_knot :=
        if dir = 0 then ((s.m_knot.1).set i.toNat k, s.m_knot.2)
        else (s.m_knot.1, (s.m_knot.2).set i.toNat k) })
    KnotMultiplicity := fun s dir i =>
      ((DemoSurface.sel s.m_knot dir).filter (fun k => Double.eq k (s.readKnot dir i))).length }

/-- The bilinear patch in rational form: same control points, `m_is_rat = 1`. -/
def demoRationalPatch : DemoSurface := { demoPatch with m_is_rat := 1 }

/-! ## Statements -/

/-- The pair `(u, v)` is not a control-point index of the surface behind `pSurface`:
`u` is outside `[0, CVCount(0))` or `v` is outside `[0, CVCount(1))`. -/
def CVIndexOutside (K : Kernel S C N) (pSurface : Option S) (u v : Int) : Prop :=
  ∃ s, pSurface = some s ∧
    (¬ (0 ≤ u ∧ u < K.CVCount s 0) ∨ ¬ (0 ≤ v ∧ v < K.CVCount s 1))

/-- The pair `(u, v)` is a control-point index of the surface `s`. -/
def CVIndexInside (K : Kernel S C N) (s : S) (u v : Int) : Prop :=
  (0 ≤ u ∧ u < K.CVCount s 0) ∧ (0 ≤ v ∧ v < K.CVCount s 1)

instance (K : Kernel S C N) (s : S) (u v : Int) : Decidable (CVIndexInside K s u v) := by
  unfold CVIndexInside
  infer_instance

/-- A control-point accessor refused its input: it returned `false`, the surface and
the caller's point are as before, and the only kernel calls made are `CVCount`
queries of the index test (so none of `GetCV`, `SetCV`, `MakeRational`). -/
def Refused {P : Type} (pSurface : Option S) (pPoint : Option P) (r : PtRet S P) : Prop :=
  r.rc = false ∧ r.surface = pSurface ∧ r.point = pPoint ∧
    ∀ c ∈ r.calls, c = KCall.CVCount 0 ∨ c = KCall.CVCount 1

/-! ### The index test -/

theorem cvIndexTest_true_iff (K : Kernel S C N) (s : S) (u v : Int) :
    (cvIndexTest K s u v).1 = true ↔ CVIndexInside K s u v := by
  unfold cvIndexTest CVIndexInside
  by_cases hu : u ≥ 0 <;> by_cases hu2 : u < K.CVCount s 0 <;> by_cases hv : v ≥ 0 <;>
    simp [hu, hu2, hv]

theorem cvIndexTest_calls (K : Kernel S C N) (s : S) (u v : Int) :
    ∀ c ∈ (cvIndexTest K s u v).2, c = KCall.CVCount 0 ∨ c = KCall.CVCount 1 := by
  unfold cvIndexTest
  by_cases hu : u ≥ 0 <;> by_cases hu2 : u < K.CVCount s 0 <;> by_cases hv : v ≥ 0 <;>
    simp [hu, hu2, hv]

theorem cvIndexTest_inside (K : Kernel S C N) (s : S) (u v : Int)
    (h : CVIndexInside K s u v) :
    cvIndexTest K s u v = (true, [KCall.CVCount 0, KCall.CVCount 1]) := by
  obtain ⟨⟨h1, h2⟩, h3, h4⟩ := h
  simp [cvIndexTest, h1, h2, h3, h4]

theorem cvIndexTest_outside (K : Kernel S C N) (s : S) (u v : Int)
    (h : ¬ (0 ≤ u ∧ u < K.CVCount s 0) ∨ ¬ (0 ≤ v ∧ v < K.CVCount s 1)) :
    (cvIndexTest K s u v).1 = false := by
  cases hb : (cvIndexTest K s u v).1 with
  | false => rfl
  | true =>
    have hin := (cvIndexTest_true_iff K s u v).1 hb
    rcases h with h | h
    · exact absurd hin.1 h
    · exact absurd hin.2 h

/-! ### Control-point accessors on invalid input -/

theorem GetCV3_refuses (K : Kernel S C N) (pSurface : Option S) (u v : Int)
    (pPoint : Option ON_3dPoint)
    (h : pSurface = none ∨ pPoint = none ∨ CVIndexOutside K pSurface u v) :
    Refused pSurface pPoint (ON_NurbsSurface_GetCV3 K pSurface u v pPoint) := by
  cases pSurface with
  | none => exact ⟨rfl, rfl, rfl, by simp [ON_NurbsSurface_GetCV3]⟩
  | some s =>
    cases pPoint with
    | none => exact ⟨rfl, rfl, rfl, by simp [ON_NurbsSurface_GetCV3]⟩
    | some p =>
      have hout : (cvIndexTest K s u v).1 = false := by
        rcases h with h | h | ⟨t, ht, h⟩
        · cases h
        · cases h
        · cases ht; exact cvIndexTest_outside K s u v h
      simp only [ON_NurbsSurface_GetCV3, Refused, hout]
      exact ⟨rfl, rfl, rfl, cvIndexTest_calls K s u v⟩

theorem SetCV3_refuses (K : Kernel S C N) (pSurface : Option S) (u v : Int)
    (pPoint : Option ON_3dPoint)
    (h : pSurface = none ∨ pPoint = none ∨ CVIndexOutside K pSurface u v) :
    Refused pSurface pPoint (ON_NurbsSurface_SetCV3 K pSurface u v pPoint) := by
  cases pSurface with
  | none => exact ⟨rfl, rfl, rfl, by simp [ON_NurbsSurface_SetCV3]⟩
  | some s =>
    cases pPoint with
    | none => exact ⟨rfl, rfl, rfl, by simp [ON_NurbsSurface_SetCV3]⟩
    | some p =>
      have hout : (cvIndexTest K s u v).1 = false := by
        rcases h with h | h | ⟨t, ht, h⟩
        · cases h
        · cases h
        · cases ht; exact cvIndexTest_outside K s u v h
      simp only [ON_NurbsSurface_SetCV3, Refused, hout]
      exact ⟨rfl, rfl, rfl, cvIndexTest_calls K s u v⟩

theorem GetCV4_refuses (K : Kernel S C N) (pSurface : Option S) (u v : Int)
    (pPoint : Option ON_4dPoint)
    (h : pSurface = none ∨ pPoint = none ∨ CVIndexOutside K pSurface u v) :
    Refused pSurface pPoint (ON_NurbsSurface_GetCV4 K pSurface u v pPoint) := by
  cases pSurface with
  | none => exact ⟨rfl, rfl, rfl, by simp [ON_NurbsSurface_GetCV4]⟩
  | some s =>
    cases pPoint with
    | none => exact ⟨rfl, rfl, rfl, by simp [ON_NurbsSurface_GetCV4]⟩
    | some p =>
      have hout : (cvIndexTest K s u v).1 = false := by
        rcases h with h | h | ⟨t, ht, h⟩
        · cases h
        · cases h
        · cases ht; exact cvIndexTest_outside K s u v h
      simp only [ON_NurbsSurface_GetCV4, Refused, hout]
      exact ⟨rfl, rfl, rfl, cvIndexTest_calls K s u v⟩

theorem SetCV4_refuses (K : Kernel S C N) (pSurface : Option S) (u v : Int)
    (pPoint : Option ON_4dPoint)
    (h : pSurface = none ∨ pPoint = none ∨ CVIndexOutside K pSurface u v) :
    Refused pSurface pPoint (ON_NurbsSurface_SetCV4 K pSurface u v pPoint) := by
  cases pSurface with
  | none => exact ⟨rfl, rfl, rfl, by simp [ON_NurbsSurface_SetCV4]⟩
  | some s =>
    cases pPoint with
    | none => exact ⟨rfl, rfl, rfl, by simp [ON_NurbsSurface_SetCV4]⟩
    | some p =>
      have hout : (cvIndexTest K s u v).1 = false := by
        rcases h with h | h | ⟨t, ht, h⟩
        · cases h
        · cases h
        · cases ht; exact cvIndexTest_outside K s u v h
      simp only [ON_NurbsSurface_SetCV4, Refused, hout]
      exact ⟨rfl, rfl, rfl, cvIndexTest_calls K s u v⟩

/-- C1: each of `ON_NurbsSurface_GetCV3`, `ON_NurbsSurface_SetCV3`,
`ON_NurbsSurface_GetCV4` and `ON_NurbsSurface_SetCV4`, called with a null surface
pointer, a null point pointer, or `u` outside `[0, CVCount(0))` or `v` outside
`[0, CVCount(1))`, returns `false`, leaves the surface and the caller's point as they
were, and makes no kernel call other than the `CVCount` queries of its index test: in
particular `GetCV`, `SetCV` and `MakeRational` are not invoked.  (`h3` is the invalid
input of the two 3D accessors, `h4` that of the two 4D ones; each pair is covered on its
own by taking the other point pointer null.) -/
theorem cv_accessors_refuse_invalid_input (K : Kernel S C N) (pSurface : Option S) (u v : Int)
    (p3 : Option ON_3dPoint) (p4 : Option ON_4dPoint)
    (h3 : pSurface = none ∨ p3 = none ∨ CVIndexOutside K pSurface u v)
    (h4 : pSurface = none ∨ p4 = none ∨ CVIndexOutside K pSurface u v) :
    Refused pSurface p3 (ON_NurbsSurface_GetCV3 K pSurface u v p3) ∧
    Refused pSurface p3 (ON_NurbsSurface_SetCV3 K pSurface u v p3) ∧
    Refused pSurface p4 (ON_NurbsSurface_GetCV4 K pSurface u v p4) ∧
    Refused pSurface p4 (ON_NurbsSurface_SetCV4 K pSurface u v p4) :=
  ⟨GetCV3_refuses K pSurface u v p3 h3, SetCV3_refuses K pSurface u v p3 h3,
    GetCV4_refuses K pSurface u v p4 h4, SetCV4_refuses K pSurface u v p4 h4⟩

/-- Witness for C1: on the bilinear patch (2 by 2 control points) the index `(2, 0)`
is outside, and all four accessors refuse it. -/
theorem cv_accessors_refuse_invalid_input_witness :
    CVIndexOutside demoKernel (some demoPatch) 2 0 ∧
    Refused (some demoPatch) (some (pt3 9 9 9))
      (ON_NurbsSurface_GetCV3 demoKernel (some demoPatch) 2 0 (some (pt3 9 9 9))) ∧
    Refused (some demoPatch) (some (pt3 9 9 9))
      (ON_NurbsSurface_SetCV3 demoKernel (some demoPatch) 2 0 (some (pt3 9 9 9))) ∧
    Refused (some demoPatch) (some (pt4 9 9 9 2))
      (ON_NurbsSurface_GetCV4 demoKernel (some demoPatch) 2 0 (some (pt4 9 9 9 2))) ∧
    Refused (some demoPatch) (some (pt4 9 9 9 2))
      (ON_NurbsSurface_SetCV4 demoKernel (some demoPatch) 2 0 (some (pt4 9 9 9 2))) :=
  have h : CVIndexOutside demoKernel (some demoPatch) 2 0 :=
    ⟨demoPatch, rfl, Or.inl (by decide)⟩
  ⟨h, cv_accessors_refuse_invalid_input demoKernel (some demoPatch) 2 0 (some (pt3 9 9 9))
    (some (pt4 9 9 9 2)) (Or.inr (Or.inr h)) (Or.inr (Or.inr h))⟩

/-! ### `ON_NurbsSurface_SetCV4` on valid input -/

theorem promotes_iff (K : Kernel S C N) (s : S) (p : ON_4dPoint) :
    promotes K s p = true ↔
      (K.m_is_rat s = 0 ∧ Double.ne p.w Double.one = true ∧ Double.gt p.w Double.zero = true ∧
        Double.lt p.w K.ON_UNSET_POSITIVE_VALUE = true) := by
  unfold promotes
  simp only [Bool.and_eq_true, decide_eq_true_eq]
  constructor
  · rintro ⟨h1, ⟨h2, h3⟩, h4⟩
    exact ⟨h2.symm, h1, h3, h4⟩
  · rintro ⟨h2, h1, h3, h4⟩
    exact ⟨h1, ⟨h2.symm, h3⟩, h4⟩

theorem SetCV4_inside (K : Kernel S C N) (s : S) (u v : Int) (p : ON_4dPoint)
    (hin : CVIndexInside K s u v) :
    ON_NurbsSurface_SetCV4 K (some s) u v (some p) =
      if promotes K s p then
        { rc := (K.SetCV4 (K.MakeRational s).2 u v p).1,
          surface := some (K.SetCV4 (K.MakeRational s).2 u v p).2, point := some p,
          calls := [KCall.CVCount 0, KCall.CVCount 1, KCall.MakeRational, KCall.SetCV4 u v p] }
      else
        { rc := (K.SetCV4 s u v p).1, surface := some (K.SetCV4 s u v p).2, point := some p,
          calls := [KCall.CVCount 0, KCall.CVCount 1, KCall.SetCV4 u v p] } := by
  simp [ON_NurbsSurface_SetCV4, cvIndexTest_inside K s u v hin]

/-- C10: on a non-null surface, a non-null 4D point and an in-range `(u, v)`,
`ON_NurbsSurface_SetCV4` invokes `MakeRational` exactly when `m_is_rat` is `0`, the
weight is `!= 1.0`, `> 0.0` and `< ON_UNSET_POSITIVE_VALUE`.  In every case the kernel
calls are the two `CVCount` queries, then `MakeRational` if the surface is promoted,
then one `SetCV(u, v, point)`, which is the only `SetCV` call; the function returns that
call's result, the surface is what that call left, and the caller's point is untouched.
In particular a weight that is not `> 0.0` or not `< ON_UNSET_POSITIVE_VALUE` never
promotes. -/
theorem SetCV4_promotes_iff_and_stores_once (K : Kernel S C N) (s : S) (u v : Int)
    (p : ON_4dPoint) (hin : CVIndexInside K s u v) :
    (KCall.MakeRational ∈ (ON_NurbsSurface_SetCV4 K (some s) u v (some p)).calls ↔
      (K.m_is_rat s = 0 ∧ Double.ne p.w Double.one = true ∧ Double.gt p.w Double.zero = true ∧
        Double.lt p.w K.ON_UNSET_POSITIVE_VALUE = true)) ∧
    (ON_NurbsSurface_SetCV4 K (some s) u v (some p)).calls =
      [KCall.CVCount 0, KCall.CVCount 1] ++
        (if promotes K s p then [KCall.MakeRational] else []) ++ [KCall.SetCV4 u v p] ∧
    (ON_NurbsSurface_SetCV4 K (some s) u v (some p)).calls.filter KCall.isSetCV =
      [KCall.SetCV4 u v p] ∧
    (ON_NurbsSurface_SetCV4 K (some s) u v (some p)).rc =
      (K.SetCV4 (if promotes K s p then (K.MakeRational s).2 else s) u v p).1 ∧
    (ON_NurbsSurface_SetCV4 K (some s) u v (some p)).surface =
      some (K.SetCV4 (if promotes K s p then (K.MakeRational s).2 else s) u v p).2 ∧
    (ON_NurbsSurface_SetCV4 K (some s) u v (some p)).point = some p ∧
    (Double.gt p.w Double.zero = false ∨ Double.lt p.w K.ON_UNSET_POSITIVE_VALUE = false →
      KCall.MakeRational ∉ (ON_NurbsSurface_SetCV4 K (some s) u v (some p)).calls) := by
  rw [SetCV4_inside K s u v p hin]
  have hiff := promotes_iff K s p
  cases hp : promotes K s p with
  | true =>
    have h := hiff.1 hp
    refine ⟨?_, ?_, ?_, ?_, ?_, ?_, ?_⟩
    · simp [h]
    · simp
    · simp [List.filter, KCall.isSetCV]
    · simp
    · simp
    · simp
    · rintro (h' | h')
      · rw [h.2.2.1] at h'; cases h'
      · rw [h.2.2.2] at h'; cases h'
  | false =>
    have h : ¬ (K.m_is_rat s = 0 ∧ Double.ne p.w Double.one = true ∧
        Double.gt p.w Double.zero = true ∧ Double.lt p.w K.ON_UNSET_POSITIVE_VALUE = true) := by
      intro h
      rw [hiff.2 h] at hp
      cases hp
    refine ⟨?_, ?_, ?_, ?_, ?_, ?_, ?_⟩
    · simp only [Bool.false_eq_true, if_false]
      constructor
      · intro hm
        simp at hm
      · intro h'
        exact absurd h' h
    · simp
    · simp [List.filter, KCall.isSetCV]
    · simp
    · simp
    · simp
    · intro _
      simp

/-- Witness for C10: the index `(1, 1)` of the non-rational bilinear patch with a point
of weight `2`: `MakeRational` is invoked and `SetCV` is called once. -/
theorem SetCV4_promotes_iff_and_stores_once_witness :
    CVIndexInside demoKernel demoPatch 1 1 ∧
    KCall.MakeRational ∈
      (ON_NurbsSurface_SetCV4 demoKernel (some demoPatch) 1 1 (some (pt4 3 4 5 2))).calls ∧
    (ON_NurbsSurface_SetCV4 demoKernel (some demoPatch) 1 1 (some (pt4 3 4 5 2))).calls.filter
      KCall.isSetCV = [KCall.SetCV4 1 1 (pt4 3 4 5 2)] :=
  have h := SetCV4_promotes_iff_and_stores_once demoKernel demoPatch 1 1 (pt4 3 4 5 2)
    (by decide)
  ⟨by decide,
    h.1.2 ⟨by decide, by decide, by decide, by simp [Double.lt, demoKernel, pt4]; norm_num⟩,
    h.2.2.1⟩

/-- C2, as amended: on a non-rational surface (`m_is_rat = 0`), for an in-range
`(u, v)` and a 4D point whose weight is `!= 1.0`, `> 0.0` and
`< ON_UNSET_POSITIVE_VALUE`, `ON_NurbsSurface_SetCV4` invokes `MakeRational` first and
then stores the point with `SetCV` on the surface as `MakeRational` left it. -/
theorem SetCV4_promotes_before_storing (K : Kernel S C N) (s : S) (u v : Int) (p : ON_4dPoint)
    (hin : CVIndexInside K s u v) (hrat : K.m_is_rat s = 0)
    (hne : Double.ne p.w Double.one = true) (hpos : Double.gt p.w Double.zero = true)
    (hlt : Double.lt p.w K.ON_UNSET_POSITIVE_VALUE = true) :
    (ON_NurbsSurface_SetCV4 K (some s) u v (some p)).calls =
      [KCall.CVCount 0, KCall.CVCount 1, KCall.MakeRational, KCall.SetCV4 u v p] ∧
    (ON_NurbsSurface_SetCV4 K (some s) u v (some p)).surface =
      some (K.SetCV4 (K.MakeRational s).2 u v p).2 ∧
    (ON_NurbsSurface_SetCV4 K (some s) u v (some p)).rc =
      (K.SetCV4 (K.MakeRational s).2 u v p).1 := by
  have hp : promotes K s p = true := (promotes_iff K s p).2 ⟨hrat, hne, hpos, hlt⟩
  rw [SetCV4_inside K s u v p hin, hp]
  exact ⟨rfl, rfl, rfl⟩

/-- Witness for C2 as amended: weight `2` stored at `(1, 1)` of the non-rational
bilinear patch; afterwards the patch is rational. -/
theorem SetCV4_promotes_before_storing_witness :
    (ON_NurbsSurface_SetCV4 demoKernel (some demoPatch) 1 1 (some (pt4 3 4 5 2))).calls =
      [KCall.CVCount 0, KCall.CVCount 1, KCall.MakeRational, KCall.SetCV4 1 1 (pt4 3 4 5 2)] ∧
    (ON_NurbsSurface_SetCV4 demoKernel (some demoPatch) 1 1 (some (pt4 3 4 5 2))).surface =
      some ((demoKernel.SetCV4 (demoKernel.MakeRational demoPatch).2 1 1 (pt4 3 4 5 2)).2) ∧
    demoKernel.m_is_rat (demoKernel.SetCV4 (demoKernel.MakeRational demoPatch).2 1 1
      (pt4 3 4 5 2)).2 = 1 :=
  have h := SetCV4_promotes_before_storing demoKernel demoPatch 1 1 (pt4 3 4 5 2)
    (by decide) (by decide) (by decide) (by decide)
    (by simp [Double.lt, demoKernel, pt4]; norm_num)
  ⟨h.1, h.2.1, by decide⟩

/-- Counterexample to C2 as stated: the bilinear patch is non-rational, `(0, 0)` is in
range and the weight `0` is not `1.0`, yet `ON_NurbsSurface_SetCV4` does not invoke
`MakeRational` (its kernel calls are the two `CVCount` queries and `SetCV`) and the
patch is still non-rational afterwards. -/
theorem SetCV4_zero_weight_not_promoted :
    demoKernel.m_is_rat demoPatch = 0 ∧
    CVIndexInside demoKernel demoPatch 0 0 ∧
    Double.ne (pt4 3 4 5 0).w Double.one = true ∧
    (ON_NurbsSurface_SetCV4 demoKernel (some demoPatch) 0 0 (some (pt4 3 4 5 0))).calls =
      [KCall.CVCount 0, KCall.CVCount 1, KCall.SetCV4 0 0 (pt4 3 4 5 0)] ∧
    (ON_NurbsSurface_SetCV4 demoKernel (some demoPatch) 0 0 (some (pt4 3 4 5 0))).surface.map
      demoKernel.m_is_rat = some 0 := by
  refine ⟨by decide, by decide, by decide, by decide, by decide⟩

/-! ### `ON_NurbsSurface_Weight` -/

/-- C3: `ON_NurbsSurface_Weight` never modifies the surface.  On a null pointer it
returns `ON_UNSET_VALUE` and makes no kernel call; when `u` is outside
`[0, CVCount(0))` or `v` is outside `[0, CVCount(1))` it returns `ON_UNSET_VALUE` and
its only kernel calls are the `CVCount` queries of the index test (the kernel's `Weight`
is not called); otherwise it returns exactly the kernel's `Weight(u, v)`. -/
theorem Weight_unset_or_kernel_weight (K : Kernel S C N) (pSurface : Option S) (u v : Int) :
    (ON_NurbsSurface_Weight K pSurface u v).surface = pSurface ∧
    (pSurface = none →
      (ON_NurbsSurface_Weight K pSurface u v).rc = K.ON_UNSET_VALUE ∧
      (ON_NurbsSurface_Weight K pSurface u v).calls = []) ∧
    (CVIndexOutside K pSurface u v →
      (ON_NurbsSurface_Weight K pSurface u v).rc = K.ON_UNSET_VALUE ∧
      (∀ c ∈ (ON_NurbsSurface_Weight K pSurface u v).calls,
        c = KCall.CVCount 0 ∨ c = KCall.CVCount 1) ∧
      KCall.Weight u v ∉ (ON_NurbsSurface_Weight K pSurface u v).calls) ∧
    (∀ s, pSurface = some s → CVIndexInside K s u v →
      (ON_NurbsSurface_Weight K pSurface u v).rc = K.Weight s u v ∧
      (ON_NurbsSurface_Weight K pSurface u v).calls =
        [KCall.CVCount 0, KCall.CVCount 1, KCall.Weight u v]) := by
  cases pSurface with
  | none =>
    refine ⟨rfl, fun _ => ⟨rfl, rfl⟩, ?_, ?_⟩
    · rintro ⟨s, hs, _⟩
      cases hs
    · intro s hs
      cases hs
  | some s =>
    refine ⟨?_, ?_, ?_, ?_⟩
    · unfold ON_NurbsSurface_Weight
      by_cases hb : (cvIndexTest K s u v).1 = true <;> simp [hb]
    · intro h
      cases h
    · rintro ⟨t, ht, h⟩
      cases ht
      have hout := cvIndexTest_outside K s u v h
      have hcalls := cvIndexTest_calls K s u v
      simp only [ON_NurbsSurface_Weight, hout]
      refine ⟨rfl, hcalls, ?_⟩
      intro hmem
      rcases hcalls _ hmem with h' | h' <;> cases h'
    · intro t ht hin
      cases ht
      simp [ON_NurbsSurface_Weight, cvIndexTest_inside K s u v hin]

/-- Witness for C3: on the bilinear patch the weight at `(2, 0)` is refused and the
weight at `(1, 1)` is the stored one. -/
theorem Weight_unset_or_kernel_weight_witness :
    (ON_NurbsSurface_Weight demoKernel (some demoPatch) 2 0).rc = demoKernel.ON_UNSET_VALUE ∧
    (ON_NurbsSurface_Weight demoKernel (some demoPatch) 1 1).rc = Double.fin 1 :=
  ⟨((Weight_unset_or_kernel_weight demoKernel (some demoPatch) 2 0).2.2.1
      ⟨demoPatch, rfl, Or.inl (by decide)⟩).1,
    ((Weight_unset_or_kernel_weight demoKernel (some demoPatch) 1 1).2.2.2 demoPatch rfl
      (by decide)).1⟩

/-! ### `ON_NurbsSurface_GetGrevillePoint` -/

theorem GetGrevillePoint_nonnull (K : Kernel S C N) (s : S) (u v : Int) (p : ON_2dPoint) :
    ON_NurbsSurface_GetGrevillePoint K (some s) u v (some p) =
      { rc := true, surface := some s,
        point := some { x := K.GrevilleAbcissa s 0 u, y := K.GrevilleAbcissa s 1 v },
        calls := [KCall.GrevilleAbcissa 0 u, KCall.GrevilleAbcissa 1 v] } := rfl

/-- C4, the code at a failing input: on the bilinear patch (2 by 2 control points) the
index `(2, 0)` is outside, yet `ON_NurbsSurface_GetGrevillePoint` returns `true` and
overwrites the caller's point with what the kernel's `GrevilleAbcissa` hands back. -/
theorem GetGrevillePoint_out_of_range_succeeds :
    CVIndexOutside demoKernel (some demoPatch) 2 0 ∧
    (ON_NurbsSurface_GetGrevillePoint demoKernel (some demoPatch) 2 0
      (some { x := Double.fin 9, y := Double.fin 9 })).rc = true ∧
    (ON_NurbsSurface_GetGrevillePoint demoKernel (some demoPatch) 2 0
      (some { x := Double.fin 9, y := Double.fin 9 })).point =
        some { x := Double.fin 5, y := Double.fin 0 } :=
  ⟨⟨demoPatch, rfl, Or.inl (by decide)⟩, by decide, by decide⟩

/-! ### Knot accessors and `ON_NurbsSurface_SetWeight` -/

/-- C5, as amended: on a non-null surface and for every `knotIndex`, in range or not,
`ON_NurbsSurface_SetKnot`, `ON_NurbsSurface_Knot` and `ON_NurbsSurface_KnotMultiplicity`
make one call to the kernel's `SetKnot`, `Knot`, `KnotMultiplicity` with the caller's
arguments and return its result; `SetKnot` leaves the surface as the kernel left it, the
two readers leave it as it was.  The range check on `knotIndex` is the kernel's. -/
theorem knot_accessors_forward_to_kernel (K : Kernel S C N) (s : S) (dir knotIndex : Int)
    (knotValue : Double) :
    (ON_NurbsSurface_SetKnot K (some s) dir knotIndex knotValue).rc =
      (K.SetKnot s dir knotIndex knotValue).1 ∧
    (ON_NurbsSurface_SetKnot K (some s) dir knotIndex knotValue).surface =
      some (K.SetKnot s dir knotIndex knotValue).2 ∧
    (ON_NurbsSurface_SetKnot K (some s) dir knotIndex knotValue).calls =
      [KCall.SetKnot dir knotIndex knotValue] ∧
    ON_NurbsSurface_Knot K (some s) dir knotIndex =
      { rc := K.Knot s dir knotIndex, surface := some s, calls := [KCall.Knot dir knotIndex] } ∧
    ON_NurbsSurface_KnotMultiplicity K (some s) dir knotIndex =
      { rc := K.KnotMultiplicity s dir knotIndex, surface := some s,
        calls := [KCall.KnotMultiplicity dir knotIndex] } := by
  refine ⟨?_, rfl, rfl, rfl, rfl⟩
  simp [ON_NurbsSurface_SetKnot]

/-- Counterexample to C5 as stated, on the kernel that trusts its indices.  The
bilinear patch has `KnotCount(0) = 2` and `CVCount = 2` in both directions.  With
`knotIndex = 2`, `ON_NurbsSurface_Knot` returns `5`, `ON_NurbsSurface_KnotMultiplicity`
returns `2`, and `ON_NurbsSurface_SetKnot` returns `true` and changes the surface; with
`(u, v) = (5, 5)` on the rational patch `ON_NurbsSurface_SetWeight` returns `true` and
changes the surface. -/
theorem unchecked_indices_reach_kernel :
    trustingKernel.KnotCount demoPatch 0 = 2 ∧
    (ON_NurbsSurface_Knot trustingKernel (some demoPatch) 0 2).rc = Double.fin 5 ∧
    (ON_NurbsSurface_KnotMultiplicity trustingKernel (some demoPatch) 0 2).rc = 2 ∧
    (ON_NurbsSurface_SetKnot trustingKernel (some demoPatch) 0 2 (Double.fin 7)).rc = true ∧
    (ON_NurbsSurface_SetKnot trustingKernel (some demoPatch) 0 2 (Double.fin 7)).surface ≠
      some demoPatch ∧
    trustingKernel.CVCount demoRationalPatch 0 = 2 ∧
    trustingKernel.CVCount demoRationalPatch 1 = 2 ∧
    (ON_NurbsSurface_SetWeight trustingKernel (some demoRationalPatch) 5 5 (Double.fin 3)).rc =
      true ∧
    (ON_NurbsSurface_SetWeight trustingKernel (some demoRationalPatch) 5 5
      (Double.fin 3)).surface ≠ some demoRationalPatch := by
  refine ⟨by decide, by decide, by decide, by decide, by decide, by decide, by decide,
    by decide, by decide⟩

/-! ### Null pointers -/

/-- C6: a null required pointer makes every wrapper return its sentinel with no kernel
call and nothing modified: `false` for `ON_NurbsSurface_GetBoolDir`, `GetBool`,
`IncreaseDegree`, `SetWeight`, `SetKnot`, `MakeUniformKnotVector`, `InsertKnot` and
`ON_MorphControl_GetBool`; `0` for `ON_NurbsSurface_GetIntDir`, `CVSize`,
`KnotMultiplicity`, `Knot`, `SuperfluousKnot` and `ON_MorphControl_GetSporhTolerance`;
`ON_UNSET_VALUE` for `ON_NurbsSurface_Weight`; a null pointer for
`ON_MorphControl_GetCurve`, `ON_MorphControl_GetSurface` and
`ON_NurbsSurface_CreateRuledSurface` (either curve null); and
`ON_NurbsSurface_CopyFrom`, `ON_MorphControl_SetCurves`, `SetSporhTolerance` and
`SetBool` leave every object as it was when one of their required pointers is null. -/
theorem null_pointer_gives_sentinel (K : Kernel S C N) (which dir e u v i m : Int)
    (w : Double) (b q : Bool) (pA pB : Option C) (src dst : Option S)
    (mc : Option (ON_MorphControl N S R)) (c0 c1 : Option N) :
    ON_NurbsSurface_GetBoolDir K none which dir = { rc := false, surface := none, calls := [] } ∧
    ON_NurbsSurface_GetBool K none which = { rc := false, surface := none, calls := [] } ∧
    ON_NurbsSurface_IncreaseDegree K none dir i = { rc := false, surface := none, calls := [] } ∧
    ON_NurbsSurface_SetWeight K none u v w = { rc := false, surface := none, calls := [] } ∧
    ON_NurbsSurface_SetKnot K none dir i w = { rc := false, surface := none, calls := [] } ∧
    ON_NurbsSurface_MakeUniformKnotVector K none dir w b =
      { rc := false, surface := none, calls := [] } ∧
    ON_NurbsSurface_InsertKnot K none dir w m = { rc := false, surface := none, calls := [] } ∧
    ON_MorphControl_GetBool (none : Option (ON_MorphControl N S R)) q = false ∧
    ON_NurbsSurface_GetIntDir K none which dir = { rc := 0, surface := none, calls := [] } ∧
    ON_NurbsSurface_CVSize K none = { rc := 0, surface := none, calls := [] } ∧
    ON_NurbsSurface_KnotMultiplicity K none dir i = { rc := 0, surface := none, calls := [] } ∧
    ON_NurbsSurface_Knot K none dir i = { rc := Double.zero, surface := none, calls := [] } ∧
    ON_NurbsSurface_SuperfluousKnot K none dir e =
      { rc := Double.zero, surface := none, calls := [] } ∧
    ON_MorphControl_GetSporhTolerance (none : Option (ON_MorphControl N S R)) = Double.zero ∧
    ON_NurbsSurface_Weight K none u v =
      { rc := K.ON_UNSET_VALUE, surface := none, calls := [] } ∧
    ON_MorphControl_GetCurve K (none : Option (ON_MorphControl N S R)) =
      { rc := none, calls := [] } ∧
    ON_MorphControl_GetSurface K (none : Option (ON_MorphControl N S R)) =
      { rc := none, calls := [] } ∧
    ON_NurbsSurface_CreateRuledSurface K none pB = { rc := none, calls := [] } ∧
    ON_NurbsSurface_CreateRuledSurface K pA none = { rc := none, calls := [] } ∧
    ON_NurbsSurface_CopyFrom K none dst = { rc := (), surface := dst, calls := [] } ∧
    ON_NurbsSurface_CopyFrom K src none = { rc := (), surface := none, calls := [] } ∧
    ON_MorphControl_SetCurves K (none : Option (ON_MorphControl N S R)) c0 c1 =
      { control := none, calls := [] } ∧
    ON_MorphControl_SetCurves K mc none c1 = { control := mc, calls := [] } ∧
    ON_MorphControl_SetCurves K mc c0 none = { control := mc, calls := [] } ∧
    ON_MorphControl_SetSporhTolerance (none : Option (ON_MorphControl N S R)) w = none ∧
    ON_MorphControl_SetBool (none : Option (ON_MorphControl N S R)) b q = none := by
  refine ⟨rfl, rfl, rfl, rfl, rfl, rfl, rfl, rfl, rfl, rfl, rfl, rfl, rfl, rfl, rfl, rfl, rfl,
    rfl, ?_, rfl, ?_, rfl, ?_, ?_, rfl, rfl⟩
  · cases pA <;> rfl
  · cases src <;> rfl
  · cases mc <;> rfl
  · cases mc <;> cases c0 <;> rfl

/-! ### `ON_NurbsSurface_GetBoolDir` -/

/-- C7: on a non-null surface `ON_NurbsSurface_GetBoolDir` returns `IsClamped(dir, 0)`
for opcode 1 and `IsClamped(dir, 1)` for opcode 2, leaving the surface as it was; it
returns the result of `ClampEnd(dir, 0)` for opcode 4 and of `ClampEnd(dir, 1)` for
opcode 5, leaving the surface as `ClampEnd` left it; every other opcode returns `false`
with no kernel call and the surface as it was.  `ClampEnd` is invoked exactly for the
opcodes 4 and 5. -/
theorem GetBoolDir_opcodes (K : Kernel S C N) (s : S) (which dir : Int) :
    ON_NurbsSurface_GetBoolDir K (some s) 1 dir =
      { rc := K.IsClamped s dir 0, surface := some s, calls := [KCall.IsClamped dir 0] } ∧
    ON_NurbsSurface_GetBoolDir K (some s) 2 dir =
      { rc := K.IsClamped s dir 1, surface := some s, calls := [KCall.IsClamped dir 1] } ∧
    ON_NurbsSurface_GetBoolDir K (some s) 4 dir =
      { rc := (K.ClampEnd s dir 0).1, surface := some (K.ClampEnd s dir 0).2,
        calls := [KCall.ClampEnd dir 0] } ∧
    ON_NurbsSurface_GetBoolDir K (some s) 5 dir =
      { rc := (K.ClampEnd s dir 1).1, surface := some (K.ClampEnd s dir 1).2,
        calls := [KCall.ClampEnd dir 1] } ∧
    (which ≠ 1 ∧ which ≠ 2 ∧ which ≠ 4 ∧ which ≠ 5 →
      ON_NurbsSurface_GetBoolDir K (some s) which dir =
        { rc := false, surface := some s, calls := [] }) ∧
    ((∃ d n, KCall.ClampEnd d n ∈ (ON_NurbsSurface_GetBoolDir K (some s) which dir).calls) ↔
      which = 4 ∨ which = 5) := by
  refine ⟨rfl, rfl, rfl, rfl, ?_, ?_⟩
  · rintro ⟨h1, h2, h4, h5⟩
    simp [ON_NurbsSurface_GetBoolDir, h1, h2, h4, h5]
  · unfold ON_NurbsSurface_GetBoolDir
    by_cases h1 : which = 1
    · subst h1; simp
    by_cases h2 : which = 2
    · subst h2; simp
    by_cases h4 : which = 4
    · subst h4; simp
    by_cases h5 : which = 5
    · subst h5; simp
    simp [h1, h2, h4, h5]

/-- Witness for C7: opcode 3 is none of the four, so it returns `false` without a
kernel call. -/
theorem GetBoolDir_opcodes_witness :
    ON_NurbsSurface_GetBoolDir demoKernel (some demoPatch) 3 0 =
      { rc := false, surface := some demoPatch, calls := [] } :=
  (GetBoolDir_opcodes demoKernel demoPatch 3 0).2.2.2.2.1 (by decide)

/-! ### `ON_NurbsSurface_CreateRuledSurface` -/

/-- C8: `ON_NurbsSurface_CreateRuledSurface` returns a non-null surface only if both
curve pointers are non-null, and then the result is the surface that the kernel's
`CreateRuledSurface` built from `ON_NurbsSurface::New()` and it satisfies `IsValid`;
whenever the built surface is not valid the function returns null. -/
theorem CreateRuledSurface_result_valid (K : Kernel S C N) (pConstA pConstB : Option C) :
    (∀ r, (ON_NurbsSurface_CreateRuledSurface K pConstA pConstB).rc = some r →
      ∃ a b, pConstA = some a ∧ pConstB = some b ∧
        r = (K.CreateRuledSurface K.New a b).2 ∧ K.IsValid r = true) ∧
    (∀ a b, pConstA = some a → pConstB = some b →
      K.IsValid (K.CreateRuledSurface K.New a b).2 = false →
      (ON_NurbsSurface_CreateRuledSurface K pConstA pConstB).rc = none) := by
  constructor
  · intro r hr
    cases pConstA with
    | none => simp [ON_NurbsSurface_CreateRuledSurface] at hr
    | some a =>
      cases pConstB with
      | none => simp [ON_NurbsSurface_CreateRuledSurface] at hr
      | some b =>
        refine ⟨a, b, rfl, rfl, ?_⟩
        cases hv : K.IsValid (K.CreateRuledSurface K.New a b).2 with
        | false => simp [ON_NurbsSurface_CreateRuledSurface, hv] at hr
        | true =>
          simp [ON_NurbsSurface_CreateRuledSurface, hv] at hr
          rw [← hr]
          exact ⟨rfl, hv⟩
  · intro a b ha hb hv
    subst ha
    subst hb
    simp [ON_NurbsSurface_CreateRuledSurface, hv]

/-- Witness for C8: two polylines of two points give a valid ruled surface; polylines
of different lengths give an invalid one, which is discarded. -/
theorem CreateRuledSurface_result_valid_witness :
    (∃ r, (ON_NurbsSurface_CreateRuledSurface demoKernel (some [pt3 0 0 0, pt3 1 0 0])
        (some [pt3 0 1 0, pt3 1 1 0])).rc = some r ∧ demoKernel.IsValid r = true) ∧
    (ON_NurbsSurface_CreateRuledSurface demoKernel (some [pt3 0 0 0, pt3 1 0 0])
      (some [pt3 0 1 0])).rc = none :=
  ⟨⟨DemoSurface.ruled [pt3 0 0 0, pt3 1 0 0] [pt3 0 1 0, pt3 1 1 0], by decide,
      by
        obtain ⟨a, b, _, _, _, hv⟩ :=
          (CreateRuledSurface_result_valid demoKernel (some [pt3 0 0 0, pt3 1 0 0])
            (some [pt3 0 1 0, pt3 1 1 0])).1
            (DemoSurface.ruled [pt3 0 0 0, pt3 1 0 0] [pt3 0 1 0, pt3 1 1 0]) (by decide)
        exact hv⟩,
    (CreateRuledSurface_result_valid demoKernel (some [pt3 0 0 0, pt3 1 0 0])
      (some [pt3 0 1 0])).2 _ _ rfl rfl (by decide)⟩

/-! ### Morph control flags and tolerance -/

/-- C9: on a non-null morph control, after `ON_MorphControl_SetBool(mc, val, q)` the
getter with the same selector returns `val`, while the getter with the other selector,
the tolerance and the stored curves (indeed every other member) are as before; selector
`true` addresses `m_sporh_bQuickPreview` and `false` addresses
`m_sporh_bPreserveStructure`.  After `ON_MorphControl_SetSporhTolerance(mc, t)` the
tolerance getter returns `t` and both flags (indeed every other member) are as before. -/
theorem MorphControl_set_then_get (mc : ON_MorphControl N S R) (val q : Bool) (t : Double) :
    ON_MorphControl_GetBool (ON_MorphControl_SetBool (some mc) val q) q = val ∧
    ON_MorphControl_GetBool (ON_MorphControl_SetBool (some mc) val q) (!q) =
      ON_MorphControl_GetBool (some mc) (!q) ∧
    ON_MorphControl_GetSporhTolerance (ON_MorphControl_SetBool (some mc) val q) =
      ON_MorphControl_GetSporhTolerance (some mc) ∧
    (ON_MorphControl_SetBool (some mc) val q).map (fun c => (c.m_nurbs_curve0, c.m_nurbs_curve)) =
      some (mc.m_nurbs_curve0, mc.m_nurbs_curve) ∧
    ON_MorphControl_SetBool (some mc) val true = some { mc with m_sporh_bQuickPreview := val } ∧
    ON_MorphControl_SetBool (some mc) val false =
      some { mc with m_sporh_bPreserveStructure := val } ∧
    ON_MorphControl_GetBool (some mc) true = mc.m_sporh_bQuickPreview ∧
    ON_MorphControl_GetBool (some mc) false = mc.m_sporh_bPreserveStructure ∧
    ON_MorphControl_GetSporhTolerance (ON_MorphControl_SetSporhTolerance (some mc) t) = t ∧
    ON_MorphControl_GetBool (ON_MorphControl_SetSporhTolerance (some mc) t) q =
      ON_MorphControl_GetBool (some mc) q ∧
    ON_MorphControl_SetSporhTolerance (some mc) t = some { mc with m_sporh_tolerance := t } := by
  cases q <;> exact ⟨rfl, rfl, rfl, rfl, rfl, rfl, rfl, rfl, rfl, rfl, rfl⟩

end Rhino3dm
